import Mathlib

/-!
Verification of the terramind-backend spatial query core.

This file shallowly embeds the logic of src/lib/queryTemplates.ts and
src/lib/spatialProcessor.ts (template matching, operation construction and
validation, the Turf.js-backed spatial operation engine, and the entity
resolver) and proves or refutes the specified properties.

Modelling conventions:
- JavaScript property values are the inductive PropVal; a missing key and an
  explicit undefined both read back as undefined, matching JS object access.
  Numeric-string coercion is not modelled: no claim exercises it, every
  numeric parameter in scope is a number. NaN is a distinct constructor; all
  JS comparisons involving NaN are false, which jsLe reproduces.
- A GeoJSON geometry is an opaque object reference, modelled as a Nat-valued
  reference cell Geometry; two geometry values are the same object iff the
  references are equal. The engine itself never inspects geometry contents,
  it only passes references to the external Turf library.
- External Turf.js calls (buffer, distance, booleanTouches,
  booleanIntersects, area, union) are parameters of the definitions, so every
  theorem is proved for an arbitrary behaviour of the external library.
- Code that can throw is embedded in Except String; a thrown TypeError is
  the value Except.error "TypeError".
- The constant sql text carried by each query template is never read by any
  of the embedded functions (matching, extraction, operation construction),
  so the sql field is not carried in the embedding.
-/

/-- A JavaScript primitive property value as stored in feature property maps
and operation parameter maps. -/
inductive PropVal where
  | num (q : ℚ)
  | str (s : String)
  | bool (b : Bool)
  | undef
  | nan
deriving DecidableEq, Repr

/-- An opaque GeoJSON geometry object, identified by its reference. -/
structure Geometry where
  ref : Nat
deriving DecidableEq, Repr

/-- A GeoJSON feature: an optional geometry plus an open property map.
The property map is an ordered list of key-value pairs; later entries
shadow earlier ones, as in JS object-literal spreads. -/
structure Feature where
  geometry : Option Geometry
  properties : List (String × PropVal)
deriving DecidableEq, Repr

/-- A value in an operation parameter map: either a primitive or a whole
feature (the resolved targetGeometry is a feature). -/
inductive ParamValue where
  | prim (v : PropVal)
  | feat (f : Feature)
deriving DecidableEq, Repr

/-- SpatialOperation from spatialProcessor.ts. The type field is a runtime
string: operations arrive from JSON and from the language-model fallback, so
nothing statically restricts it to the seven kinds. -/
structure SpatialOperation where
  type : String
  parameters : List (String × ParamValue)
  layers : List String
deriving DecidableEq, Repr

/-- Metadata attached to every engine result. -/
structure ResultMetadata where
  operation : String
  processingTime : ℚ
  engine : String
deriving DecidableEq, Repr

/-- SpatialResult from spatialProcessor.ts. -/
structure SpatialResult where
  geometry : Option Geometry
  properties : List (String × PropVal)
  metadata : ResultMetadata
deriving DecidableEq, Repr

/-- JS object property read on a property map: the last binding of the key
wins, a missing key reads as none (undefined at use sites). -/
def jsGetProp (props : List (String × PropVal)) (k : String) : Option PropVal :=
  props.reverse.lookup k

/-- JS object property read on an operation parameter map; a missing key is
undefined. -/
def jsParam (ps : List (String × ParamValue)) (k : String) : ParamValue :=
  (ps.reverse.lookup k).getD (.prim .undef)

/-- JS destructuring with a default: the default applies exactly when the
read value is undefined. -/
def jsParamD (ps : List (String × ParamValue)) (k : String) (d : ParamValue) : ParamValue :=
  match jsParam ps k with
  | .prim .undef => d
  | v => v

/-- ASCII lower-casing of one character. -/
def charLower (c : Char) : Char :=
  if 65 ≤ c.toNat ∧ c.toNat ≤ 90 then Char.ofNat (c.toNat + 32) else c

/-- JS String.prototype.toLowerCase for the ASCII strings that occur in this
code base (query text, place names, template keywords). -/
def jsToLower (s : String) : String :=
  String.mk (s.data.map charLower)

/-- Boolean test that sub occurs as a contiguous run inside l. -/
def charsContain (sub : List Char) : List Char → Bool
  | [] => sub.isEmpty
  | c :: rest => sub.isPrefixOf (c :: rest) || charsContain sub rest

/-- JS String.prototype.includes: substring containment. -/
def jsIncludes (s sub : String) : Bool :=
  charsContain sub.data s.data

/-- JS truthiness of a primitive value. -/
def jsTruthy (v : PropVal) : Bool :=
  match v with
  | .num q => q != 0
  | .str s => s != ""
  | .bool b => b
  | .undef => false
  | .nan => false

/-- JS logical-or defaulting as in `x || d`, reading x from a property map. -/
def jsOr (v : Option PropVal) (d : PropVal) : PropVal :=
  match v with
  | some p => if jsTruthy p then p else d
  | none => d

/-- JS numeric multiplication of a parameter value by a numeric constant:
any non-number operand yields NaN (numeric strings never occur here). -/
def jsMulConst (v : ParamValue) (c : ℚ) : PropVal :=
  match v with
  | .prim (.num q) => .num (q * c)
  | _ => .nan

/-- A parameter value used in JS numeric position without arithmetic:
numbers stay numbers, everything non-numeric behaves as NaN in the
comparisons that follow. -/
def paramToNum (v : ParamValue) : PropVal :=
  match v with
  | .prim (.num q) => .num q
  | _ => .nan

/-- A parameter value stored into a result property map. Only primitives
occur in practice; a feature-valued parameter would be an opaque object and
is mapped to NaN (no claim exercises it). -/
def paramToProp (v : ParamValue) : PropVal :=
  match v with
  | .prim p => p
  | .feat _ => .nan

/-- JS `a <= b` on engine values: true only for two numbers in order; any
comparison involving NaN or undefined is false. -/
def jsLe (a b : PropVal) : Bool :=
  match a, b with
  | .num x, .num y => decide (x ≤ y)
  | _, _ => false

/- ===== queryTemplates.ts : the static template table ===== -/

/-- The spatialOperation block of a query template. -/
structure SpatialOpSpec where
  type : String
  parameters : List (String × ParamValue)
deriving DecidableEq, Repr

/-- QueryTemplate from queryTemplates.ts (the constant sql text is carried
by the source but never read by any embedded function, see the file
header). -/
structure QueryTemplate where
  pattern : String
  description : String
  layers : List String
  operation : String
  spatialOperation : Option SpatialOpSpec
deriving DecidableEq, Repr

/-- Template 0: coastline buffer. -/
def coastlineBufferTemplate : QueryTemplate :=
  { pattern := "coastline within {distance} miles of {location}"
  , description := "Creates a buffer around coastline near a specific location"
  , layers := ["coastline"]
  , operation := "BUFFER"
  , spatialOperation := some
      { type := "BUFFER"
      , parameters :=
          [ ("distance", .prim (.str "{distance}"))
          , ("units", .prim (.str "miles")) ] } }

/-- Template 1: cities proximity. -/
def citiesWithinTemplate : QueryTemplate :=
  { pattern := "cities within {distance} miles of {location}"
  , description := "Finds cities within a specified distance of a location"
  , layers := ["cities"]
  , operation := "WITHIN"
  , spatialOperation := some
      { type := "WITHIN"
      , parameters :=
          [ ("distance", .prim (.str "{distance}"))
          , ("units", .prim (.str "miles"))
          , ("targetGeometry", .prim (.str "{location}")) ] } }

/-- Template 2: state borders. -/
def statesBorderTemplate : QueryTemplate :=
  { pattern := "states that border {state}"
  , description := "Finds states that share a border with the specified state"
  , layers := ["states"]
  , operation := "TOUCHES"
  , spatialOperation := some
      { type := "TOUCHES"
      , parameters := [ ("targetState", .prim (.str "{state}")) ] } }

/-- Template 3: rivers through a state. -/
def riversThroughTemplate : QueryTemplate :=
  { pattern := "rivers that flow through {state}"
  , description := "Finds rivers that intersect with the specified state"
  , layers := ["rivers", "states"]
  , operation := "INTERSECTS"
  , spatialOperation := some
      { type := "INTERSECTS"
      , parameters := [ ("targetState", .prim (.str "{state}")) ] } }

/-- Template 4: lakes larger than an area. -/
def lakesLargerTemplate : QueryTemplate :=
  { pattern := "lakes larger than {area} square miles"
  , description := "Finds lakes larger than the specified area"
  , layers := ["lakes"]
  , operation := "AREA_FILTER"
  , spatialOperation := some
      { type := "AREA_FILTER"
      , parameters :=
          [ ("minArea", .prim (.str "{area}"))
          , ("units", .prim (.str "square_miles")) ] } }

/-- Template 5: generic intersection of two layers. -/
def intersectionTemplate : QueryTemplate :=
  { pattern := "intersection of {layer1} and {layer2}"
  , description := "Finds the intersection between two spatial layers"
  , layers := ["{layer1}", "{layer2}"]
  , operation := "INTERSECTS"
  , spatialOperation := some
      { type := "INTERSECTS"
      , parameters :=
          [ ("layer1", .prim (.str "{layer1}"))
          , ("layer2", .prim (.str "{layer2}")) ] } }

/-- SPATIAL_QUERY_TEMPLATES, in source order. -/
def SPATIAL_QUERY_TEMPLATES : List QueryTemplate :=
  [ coastlineBufferTemplate
  , citiesWithinTemplate
  , statesBorderTemplate
  , riversThroughTemplate
  , lakesLargerTemplate
  , intersectionTemplate ]

/-- The body of the for-loop of findMatchingTemplate. The source computes
the lower-cased pattern of the template under iteration but never uses it:
all six checks read only the normalized query, and each returns the template
of the CURRENT iteration when its keyword rule fires. -/
def findMatchingTemplateAux (normalizedQuery : String) :
    List QueryTemplate → Option QueryTemplate
  | [] => none
  | template :: rest =>
    -- States border queries - must include states and border (checked first)
    if jsIncludes normalizedQuery "states" &&
        (jsIncludes normalizedQuery "border" || jsIncludes normalizedQuery "borders") then
      some template
    -- Coastline queries - must include coastline specifically
    else if jsIncludes normalizedQuery "coastline" &&
        (jsIncludes normalizedQuery "within" || jsIncludes normalizedQuery "near") &&
        (jsIncludes normalizedQuery "miles" || jsIncludes normalizedQuery "mile") then
      some template
    -- Cities queries - must include cities specifically
    else if jsIncludes normalizedQuery "cities" &&
        (jsIncludes normalizedQuery "within" || jsIncludes normalizedQuery "near") &&
        (jsIncludes normalizedQuery "miles" || jsIncludes normalizedQuery "mile") then
      some template
    -- Rivers queries - must include rivers and flow through
    else if jsIncludes normalizedQuery "rivers" &&
        (jsIncludes normalizedQuery "flow through" || jsIncludes normalizedQuery "through") then
      some template
    -- Lakes queries - must include lakes and size comparison
    else if jsIncludes normalizedQuery "lakes" &&
        (jsIncludes normalizedQuery "larger than" || jsIncludes normalizedQuery "bigger than") then
      some template
    -- Generic intersection queries
    else if jsIncludes normalizedQuery "intersection" ||
        (jsIncludes normalizedQuery "intersect" && jsIncludes normalizedQuery "and") then
      some template
    else
      findMatchingTemplateAux normalizedQuery rest

/-- findMatchingTemplate from queryTemplates.ts. -/
def findMatchingTemplate (query : String) : Option QueryTemplate :=
  findMatchingTemplateAux (jsToLower query) SPATIAL_QUERY_TEMPLATES

/-- JS String.prototype.startsWith. -/
def jsStartsWith (s pre : String) : Bool :=
  pre.data.isPrefixOf s.data

/-- JS String.prototype.endsWith. -/
def jsEndsWith (s suf : String) : Bool :=
  suf.data.reverse.isPrefixOf s.data.reverse

/-- JS value.slice(1, -1) on a string. -/
def stripEnds (s : String) : String :=
  String.mk ((s.data.drop 1).dropLast)

/-- createSpatialOperation from queryTemplates.ts: copies the parameter map
of the template and replaces every placeholder value (a string wrapped in
brace markers) by the extracted parameter of that name; an absent extracted
parameter leaves the key bound to undefined. -/
def createSpatialOperation (template : QueryTemplate)
    (params : List (String × ParamValue)) : Option SpatialOperation :=
  match template.spatialOperation with
  | none => none
  | some so =>
    some
      { type := so.type
      , parameters := so.parameters.map fun kv =>
          match kv.2 with
          | .prim (.str s) =>
            if jsStartsWith s "\x7b" && jsEndsWith s "\x7d" then
              (kv.1, jsParam params (stripEnds s))
            else kv
          | _ => kv
      , layers := template.layers }

/- ===== spatialProcessor.ts : TurfSpatialProcessor ===== -/

namespace TurfSpatialProcessor

/-- The list of operation type strings accepted by validateOperation. -/
def validOperations : List String :=
  ["BUFFER", "WITHIN", "TOUCHES", "INTERSECTS", "AREA_FILTER", "UNION", "DIFFERENCE"]

/-- validateOperation: the source performs only a membership test of the
type string; the parameter map and layer list are never inspected. -/
def validateOperation (op : SpatialOperation) : Bool :=
  validOperations.contains op.type

/-- processBuffer. The external turf.buffer call is the parameter tb; it
receives the feature and the computed buffer distance value and yields the
buffered geometry, or none when buffering fails (the source then skips the
feature). -/
def processBuffer (tb : Feature → PropVal → Option Geometry)
    (op : SpatialOperation) (data : List Feature) : List SpatialResult :=
  let distance := jsParam op.parameters "distance"
  let units := jsParamD op.parameters "units" (.prim (.str "miles"))
  let bufferDistance :=
    if units == ParamValue.prim (.str "miles") then jsMulConst distance 1609.34
    else paramToNum distance
  data.filterMap fun feature =>
    match feature.geometry with
    | some _ =>
      match tb feature bufferDistance with
      | some bufferedGeom =>
        some { geometry := some bufferedGeom
             , properties := feature.properties ++
                 [ ("buffer_distance", paramToProp distance)
                 , ("buffer_units", paramToProp units)
                 , ("original_type",
                     jsOr (jsGetProp feature.properties "type") (.str "unknown")) ]
             , metadata := { operation := "BUFFER", processingTime := 0, engine := "turf" } }
      | none => none
    | none => none

/-- processWithin. The external turf.distance call is the parameter
distFn, returning the geodesic distance in kilometers or throwing; a throw
is caught by the source and the feature skipped. A targetGeometry parameter
that is not a feature either fails the truthiness guard (undefined) or makes
turf.distance throw, so the feature is skipped in every non-feature case. -/
def processWithin (distFn : Feature → Feature → Except String ℚ)
    (op : SpatialOperation) (data : List Feature) : List SpatialResult :=
  let targetGeometry := jsParam op.parameters "targetGeometry"
  let distance := jsParam op.parameters "distance"
  let units := jsParamD op.parameters "units" (.prim (.str "miles"))
  let searchDistance :=
    if units == ParamValue.prim (.str "miles") then jsMulConst distance 1609.34
    else paramToNum distance
  data.filterMap fun feature =>
    match feature.geometry, targetGeometry with
    | some _, .feat tgt =>
      match distFn feature tgt with
      | .ok distanceToTargetKm =>
        let distanceToTargetM := distanceToTargetKm * 1000
        if jsLe (.num distanceToTargetM) searchDistance then
          some { geometry := feature.geometry
               , properties := feature.properties ++
                   [ ("distance_to_target", .num distanceToTargetM)
                   , ("within_distance", searchDistance) ]
               , metadata := { operation := "WITHIN", processingTime := 0, engine := "turf" } }
        else none
      | .error _ => none
    | _, _ => none

/-- processTouches, with turf.booleanTouches as the external parameter bt. -/
def processTouches (bt : Feature → Feature → Bool)
    (op : SpatialOperation) (data : List Feature) : List SpatialResult :=
  let targetGeometry := jsParam op.parameters "targetGeometry"
  data.filterMap fun feature =>
    match feature.geometry, targetGeometry with
    | some _, .feat tgt =>
      if bt feature tgt then
        some { geometry := feature.geometry
             , properties := feature.properties ++ [("touches_target", .bool true)]
             , metadata := { operation := "TOUCHES", processingTime := 0, engine := "turf" } }
      else none
    | _, _ => none

/-- processIntersects, with turf.booleanIntersects as the external
parameter bi. -/
def processIntersects (bi : Feature → Feature → Bool)
    (op : SpatialOperation) (data : List Feature) : List SpatialResult :=
  let targetGeometry := jsParam op.parameters "targetGeometry"
  data.filterMap fun feature =>
    match feature.geometry, targetGeometry with
    | some _, .feat tgt =>
      if bi feature tgt then
        some { geometry := feature.geometry
             , properties := feature.properties ++ [("intersects_target", .bool true)]
             , metadata := { operation := "INTERSECTS", processingTime := 0, engine := "turf" } }
      else none
    | _, _ => none

/-- processAreaFilter, with turf.area (square meters) as the external
parameter areaFn. The units parameter is read by the source but never used:
the area is always converted to square miles. -/
def processAreaFilter (areaFn : Feature → ℚ)
    (op : SpatialOperation) (data : List Feature) : List SpatialResult :=
  let minArea := jsParam op.parameters "minArea"
  let _units := jsParamD op.parameters "units" (.prim (.str "square_miles"))
  data.filterMap fun feature =>
    match feature.geometry with
    | some _ =>
      let area := areaFn feature
      let areaInSqMiles := area / 2589988.110336
      if jsLe (paramToNum minArea) (.num areaInSqMiles) then
        some { geometry := feature.geometry
             , properties := feature.properties ++
                 [ ("area_sq_miles", .num areaInSqMiles)
                 , ("area_sq_meters", .num area) ]
             , metadata := { operation := "AREA_FILTER", processingTime := 0, engine := "turf" } }
      else none
    | none => none

/-- processUnion, with turf.union as the external parameter tu (assumed to
return a feature on the inputs supplied, matching the sources unchecked use
of the result). Throws when fewer than 2 features are supplied. -/
def processUnion (tu : Feature → Feature → Feature)
    (_op : SpatialOperation) (data : List Feature) : Except String (List SpatialResult) :=
  if data.length < 2 then
    .error "Union operation requires at least 2 geometries"
  else
    match data with
    | [] => .error "Union operation requires at least 2 geometries"
    | d0 :: rest =>
      let unioned := rest.foldl tu d0
      .ok [ { geometry := unioned.geometry
            , properties :=
                [ ("operation", .str "UNION")
                , ("feature_count", .num (data.length : ℚ)) ]
            , metadata := { operation := "UNION", processingTime := 0, engine := "turf" } } ]

/-- processDifference. Throws when fewer than 2 features are supplied. The
for-loop of the source over the subtractors logs and breaks on its first
iteration without computing any geometric difference, so the result stays
the base feature unchanged; the following falsiness guard on result can then
never fire (the base is an object, hence truthy). -/
def processDifference
    (_op : SpatialOperation) (data : List Feature) : Except String (List SpatialResult) :=
  if data.length < 2 then
    .error "Difference operation requires at least 2 geometries"
  else
    match data with
    | [] => .error "Difference operation requires at least 2 geometries"
    | base :: _subtractors =>
      let result := base
      .ok [ { geometry := result.geometry
            , properties :=
                [ ("operation", .str "DIFFERENCE")
                , ("original_count", .num (data.length : ℚ)) ]
            , metadata := { operation := "DIFFERENCE", processingTime := 0, engine := "turf" } } ]

/-- The bundle of external Turf.js functions the engine dispatches to. -/
structure TurfLib where
  buffer : Feature → PropVal → Option Geometry
  distance : Feature → Feature → Except String ℚ
  booleanTouches : Feature → Feature → Bool
  booleanIntersects : Feature → Feature → Bool
  area : Feature → ℚ
  union : Feature → Feature → Feature

/-- processOperation: dispatch on the runtime type string; an unrecognized
type throws. -/
def processOperation (turf : TurfLib) (op : SpatialOperation)
    (data : List Feature) : Except String (List SpatialResult) :=
  match op.type with
  | "BUFFER" => .ok (processBuffer turf.buffer op data)
  | "WITHIN" => .ok (processWithin turf.distance op data)
  | "TOUCHES" => .ok (processTouches turf.booleanTouches op data)
  | "INTERSECTS" => .ok (processIntersects turf.booleanIntersects op data)
  | "AREA_FILTER" => .ok (processAreaFilter turf.area op data)
  | "UNION" => processUnion turf.union op data
  | "DIFFERENCE" => processDifference op data
  | t => .error ("Unsupported operation: " ++ t)

end TurfSpatialProcessor

/- ===== spatialProcessor.ts : SpatialUtils.findFeatureByName ===== -/

namespace SpatialUtils

/-- Reads feature.properties?.NAME?.toLowerCase() as the source does: a
missing or undefined NAME reads as none (the optional chain stops), a string
NAME is lower-cased, and any other value makes the toLowerCase call throw a
TypeError. -/
def nameLowerE (f : Feature) : Except String (Option String) :=
  match jsGetProp f.properties "NAME" with
  | none => .ok none
  | some .undef => .ok none
  | some (.str s) => .ok (some (jsToLower s))
  | some _ => .error "TypeError"

/-- Reads feature.properties?.SOV0NAME?.toLowerCase(), same conventions as
nameLowerE. -/
def sovLowerE (f : Feature) : Except String (Option String) :=
  match jsGetProp f.properties "SOV0NAME" with
  | none => .ok none
  | some .undef => .ok none
  | some (.str s) => .ok (some (jsToLower s))
  | some _ => .error "TypeError"

/-- JS Array.prototype.find with a predicate that may throw: the scan stops
at the first feature whose predicate throws or holds; an exhausted scan
yields undefined (none). -/
def jsFindE (p : Feature → Except String Bool) : List Feature → Except String (Option Feature)
  | [] => .ok none
  | f :: fs =>
    match p f with
    | .error e => .error e
    | .ok true => .ok (some f)
    | .ok false => jsFindE p fs

/-- True when a lower-cased country string names the preferred country. -/
def isUSCountry (c : Option String) : Bool :=
  c == some "united states" || c == some "usa"

/-- Predicate of the first find inside the San Francisco special case: name
equals the literal string exactly and the sovereign field is the preferred
country. Both optional-chain reads happen before the comparisons. -/
def usExactSFPred (f : Feature) : Except String Bool := do
  let n ← nameLowerE f
  let c ← sovLowerE f
  pure (n == some "san francisco" && isUSCountry c)

/-- Predicate of the substring finds: the name read and the country read
both happen first, then featureName.includes is called, which throws a
TypeError when the name read produced undefined. -/
def usSubstrPred (sub : String) (f : Feature) : Except String Bool := do
  let n ← nameLowerE f
  let c ← sovLowerE f
  match n with
  | none => .error "TypeError"
  | some nl => pure (jsIncludes nl sub && isUSCountry c)

/-- Predicate of the exact-match find: a single optional-chain comparison,
never throws on a string or missing NAME. -/
def exactPred (normalizedName : String) (f : Feature) : Except String Bool := do
  let n ← nameLowerE f
  pure (n == some normalizedName)

/-- Predicate of the final catch-all substring find; throws on a missing
NAME exactly like usSubstrPred but ignores the country. -/
def anySubstrPred (normalizedName : String) (f : Feature) : Except String Bool := do
  let n ← nameLowerE f
  match n with
  | none => .error "TypeError"
  | some nl => pure (jsIncludes nl normalizedName)

/-- findFeatureByName from spatialProcessor.ts. Resolution order of the
source: the San Francisco special case (exact United States match, then
United States substring match), then exact case-insensitive match, then
United States substring match, then any substring match, else null. -/
def findFeatureByName (features : List Feature) (name : String) :
    Except String (Option Feature) := do
  let normalizedName := jsToLower name
  let sfResult ←
    (if jsIncludes normalizedName "san francisco" then do
      let usSanFrancisco ← jsFindE usExactSFPred features
      match usSanFrancisco with
      | some f => pure (some f)
      | none => jsFindE (usSubstrPred "san francisco") features
    else pure none)
  match sfResult with
  | some f => pure (some f)
  | none => do
    let exactMatch ← jsFindE (exactPred normalizedName) features
    match exactMatch with
    | some f => pure (some f)
    | none => do
      let usMatch ← jsFindE (usSubstrPred normalizedName) features
      match usMatch with
      | some f => pure (some f)
      | none => do
        let anyMatch ← jsFindE (anySubstrPred normalizedName) features
        pure anyMatch

end SpatialUtils

/- ===== Decidability and concrete fixtures ===== -/

/-- Decidable equality for Except values, so concrete runs of throwing code
can be checked by decide. -/
instance {e a : Type} [DecidableEq e] [DecidableEq a] : DecidableEq (Except e a)
  | .ok x, .ok y =>
    if h : x = y then isTrue (congrArg Except.ok h)
    else isFalse (fun hh => h (Except.ok.inj hh))
  | .ok _, .error _ => isFalse (fun hh => Except.noConfusion hh)
  | .error _, .ok _ => isFalse (fun hh => Except.noConfusion hh)
  | .error x, .error y =>
    if h : x = y then isTrue (congrArg Except.error h)
    else isFalse (fun hh => h (Except.error.inj hh))

/-- The per-feature step of processBuffer specialised to a 50 mile
operation, used to state the one-result-per-valid-feature property. -/
def bufferStep50 (tb : Feature → PropVal → Option Geometry) (feature : Feature) :
    Option SpatialResult :=
  match feature.geometry with
  | some _ =>
    match tb feature (.num (50 * 1609.34)) with
    | some bufferedGeom =>
      some { geometry := some bufferedGeom
           , properties := feature.properties ++
               [ ("buffer_distance", PropVal.num 50)
               , ("buffer_units", PropVal.str "miles")
               , ("original_type", jsOr (jsGetProp feature.properties "type") (.str "unknown")) ]
           , metadata := { operation := "BUFFER", processingTime := 0, engine := "turf" } }
    | none => none
  | none => none

/-- The per-feature step of processAreaFilter at a given minArea value. -/
def areaStep (areaFn : Feature → ℚ) (minArea : ParamValue) (feature : Feature) :
    Option SpatialResult :=
  match feature.geometry with
  | some _ =>
    let area := areaFn feature
    let areaInSqMiles := area / 2589988.110336
    if jsLe (paramToNum minArea) (.num areaInSqMiles) then
      some { geometry := feature.geometry
           , properties := feature.properties ++
               [ ("area_sq_miles", .num areaInSqMiles)
               , ("area_sq_meters", .num area) ]
           , metadata := { operation := "AREA_FILTER", processingTime := 0, engine := "turf" } }
    else none
  | none => none

/-- The per-feature step of processWithin once the target feature and the
mile distance parameter are fixed. -/
def withinStep (distFn : Feature → Feature → Except String ℚ) (tgt : Feature) (d : ℚ)
    (feature : Feature) : Option SpatialResult :=
  match feature.geometry, ParamValue.feat tgt with
  | some _, .feat t =>
    match distFn feature t with
    | .ok distanceToTargetKm =>
      let distanceToTargetM := distanceToTargetKm * 1000
      if jsLe (.num distanceToTargetM) (.num (d * 1609.34)) then
        some { geometry := feature.geometry
             , properties := feature.properties ++
                 [ ("distance_to_target", .num distanceToTargetM)
                 , ("within_distance", .num (d * 1609.34)) ]
             , metadata := { operation := "WITHIN", processingTime := 0, engine := "turf" } }
      else none
    | .error _ => none
  | _, _ => none

/-- A fixed external Turf implementation for concrete runs. -/
def constTurf : TurfSpatialProcessor.TurfLib :=
  { buffer := fun _ _ => some ⟨100⟩
  , distance := fun _ _ => .ok 1
  , booleanTouches := fun _ _ => true
  , booleanIntersects := fun _ _ => true
  , area := fun _ => 2589988.110336
  , union := fun a _ => a }

/-- The operation produced by instantiating the coastline template with an
empty extracted-parameter map: the distance placeholder resolves to
undefined. -/
def noParamBufferOp : SpatialOperation :=
  { type := "BUFFER"
  , parameters := [("distance", .prim .undef), ("units", .prim (.str "miles"))]
  , layers := ["coastline"] }

/-- Target feature for the aliasing counterexample. -/
def cAliasTarget : Feature := { geometry := some ⟨9⟩, properties := [] }

/-- INTERSECTS operation for the aliasing counterexample. -/
def cAliasOp : SpatialOperation :=
  { type := "INTERSECTS"
  , parameters := [("targetGeometry", .feat cAliasTarget)]
  , layers := ["rivers"] }

/-- Input feature for the aliasing counterexample; its geometry is the
object reference 5. -/
def cAliasFeature : Feature := { geometry := some ⟨5⟩, properties := [("NAME", .str "x")] }

/-- A fixed external buffer function for the buffer witness. -/
def cTb : Feature → PropVal → Option Geometry := fun _ _ => some ⟨100⟩

/-- A 50 mile BUFFER operation with explicit units. -/
def cBufferOp : SpatialOperation :=
  { type := "BUFFER"
  , parameters := [("distance", .prim (.num 50)), ("units", .prim (.str "miles"))]
  , layers := ["coastline"] }

/-- Buffer witness data: one feature with geometry, one without. -/
def cBufferData : List Feature :=
  [ { geometry := some ⟨1⟩, properties := [] }
  , { geometry := none, properties := [] } ]

/-- Target feature for the within witness. -/
def cWithinTarget : Feature :=
  { geometry := some ⟨7⟩, properties := [("NAME", .str "San Francisco")] }

/-- A 50 mile WITHIN operation around cWithinTarget. -/
def cWithinOp : SpatialOperation :=
  { type := "WITHIN"
  , parameters :=
      [ ("distance", .prim (.num 50))
      , ("units", .prim (.str "miles"))
      , ("targetGeometry", .feat cWithinTarget) ]
  , layers := ["cities"] }

/-- Within witness data. -/
def cWithinData : List Feature := [{ geometry := some ⟨2⟩, properties := [] }]

/-- A fixed external distance function: every feature is 1 km away. -/
def cDistFn : Feature → Feature → Except String ℚ := fun _ _ => .ok 1

/-- A fixed external area function: every feature has exactly one square
mile of area. -/
def cAreaFn : Feature → ℚ := fun _ => 2589988.110336

/-- AREA_FILTER operation with minArea 1. -/
def cAreaOp1 : SpatialOperation :=
  { type := "AREA_FILTER"
  , parameters := [("minArea", .prim (.num 1)), ("units", .prim (.str "square_miles"))]
  , layers := ["lakes"] }

/-- AREA_FILTER operation with minArea 2. -/
def cAreaOp2 : SpatialOperation :=
  { type := "AREA_FILTER"
  , parameters := [("minArea", .prim (.num 2)), ("units", .prim (.str "square_miles"))]
  , layers := ["lakes"] }

/-- Area witness data. -/
def cAreaData : List Feature := [{ geometry := some ⟨4⟩, properties := [] }]

/-- A feature whose property map lacks a NAME field. -/
def noNameFeature : Feature :=
  { geometry := none, properties := [("SOV0NAME", .str "Mexico")] }

/-- A United States San Francisco feature. -/
def usSFCityFeature : Feature :=
  { geometry := some ⟨3⟩
  , properties := [("NAME", .str "San Francisco"), ("SOV0NAME", .str "United States")] }

/-- A feature with an empty property map. -/
def noNameOnlyFeature : Feature := { geometry := none, properties := [] }

/-- United States San Francisco for the resolver witness. -/
def usSFWitnessFeature : Feature :=
  { geometry := some ⟨1⟩
  , properties := [("NAME", .str "San Francisco"), ("SOV0NAME", .str "United States")] }

/-- A same-named non-US San Francisco for the resolver witness. -/
def philippinesSFWitnessFeature : Feature :=
  { geometry := some ⟨2⟩
  , properties := [("NAME", .str "San Francisco"), ("SOV0NAME", .str "Philippines")] }

/- ===== General helper lemmas ===== -/

/-- A filterMap has exactly one output per input on which the step function
fires. -/
lemma length_filterMap_eq_length_filter {α β : Type} (F : α → Option β) (l : List α) :
    (l.filterMap F).length = (l.filter (fun x => (F x).isSome)).length := by
  induction l with
  | nil => rfl
  | cons a l ih =>
    cases h : F a <;> simp [List.filterMap_cons, List.filter_cons, h, ih]

/-- A filterMap whose step fires less often yields a sublist. -/
lemma filterMap_sublist_of_imp {α β : Type} (F G : α → Option β)
    (h : ∀ a b, G a = some b → F a = some b) (l : List α) :
    (l.filterMap G).Sublist (l.filterMap F) := by
  induction l with
  | nil => simp
  | cons a l ih =>
    cases hG : G a with
    | none =>
      cases hF : F a with
      | none => simpa [List.filterMap_cons, hG, hF] using ih
      | some b =>
        simp only [List.filterMap_cons, hG, hF]
        exact ih.cons b
    | some b =>
      have hF := h a b hG
      simp only [List.filterMap_cons, hG, hF]
      exact ih.cons₂ b

/-- Association-list lookup distributes over append. -/
lemma lookup_append {α β : Type} [BEq α] (k : α) (l₁ l₂ : List (α × β)) :
    List.lookup k (l₁ ++ l₂) = (List.lookup k l₁).or (List.lookup k l₂) := by
  induction l₁ with
  | nil => simp
  | cons p l ih =>
    cases h : k == p.1 <;> simp [List.lookup, h, ih]

/-- Reading a key from a spread object: the later (appended) bindings win. -/
lemma jsGetProp_append (ps qs : List (String × PropVal)) (k : String) :
    jsGetProp (ps ++ qs) k = (jsGetProp qs k).or (jsGetProp ps k) := by
  unfold jsGetProp
  rw [List.reverse_append, lookup_append]

/-- processBuffer on a 50 mile operation is the filterMap of bufferStep50. -/
lemma processBuffer_expand
    (tb : Feature → PropVal → Option Geometry) (op : SpatialOperation)
    (hd : jsParam op.parameters "distance" = .prim (.num 50))
    (hu : jsParam op.parameters "units" = .prim (.str "miles"))
    (data : List Feature) :
    TurfSpatialProcessor.processBuffer tb op data = data.filterMap (bufferStep50 tb) := by
  unfold TurfSpatialProcessor.processBuffer jsParamD bufferStep50
  simp only [hd, hu]
  rfl

/-- processAreaFilter is the filterMap of areaStep at the minArea read from
the operation. -/
lemma processAreaFilter_expand (areaFn : Feature → ℚ) (op : SpatialOperation)
    (data : List Feature) :
    TurfSpatialProcessor.processAreaFilter areaFn op data =
      data.filterMap (areaStep areaFn (jsParam op.parameters "minArea")) := by
  unfold TurfSpatialProcessor.processAreaFilter areaStep
  rfl

/-- processWithin on a mile operation with a feature target is the filterMap
of withinStep. -/
lemma processWithin_expand
    (distFn : Feature → Feature → Except String ℚ) (op : SpatialOperation)
    (data : List Feature) (tgt : Feature) (d : ℚ)
    (htgt : jsParam op.parameters "targetGeometry" = .feat tgt)
    (hd : jsParam op.parameters "distance" = .prim (.num d))
    (hu : jsParam op.parameters "units" = .prim (.str "miles")) :
    TurfSpatialProcessor.processWithin distFn op data =
      data.filterMap (withinStep distFn tgt d) := by
  unfold TurfSpatialProcessor.processWithin jsParamD withinStep
  simp only [htgt, hd, hu]
  rfl

namespace SpatialUtils

/-- Bind of an ok value in the Except monad. -/
lemma exbind_ok {α β : Type} (a : α) (g : α → Except String β) :
    (Except.ok a >>= g) = g a := rfl

/-- Bind of an error in the Except monad. -/
lemma exbind_error {α β : Type} (e : String) (g : α → Except String β) :
    ((Except.error e : Except String α) >>= g) = .error e := rfl

/-- Pure in the Except monad. -/
lemma expure {α : Type} (a : α) : (pure a : Except String α) = .ok a := rfl

/-- The country read either succeeds or throws exactly a TypeError. -/
lemma sovLowerE_ok_or_typeerror (f : Feature) :
    (∃ c, sovLowerE f = .ok c) ∨ sovLowerE f = .error "TypeError" := by
  unfold sovLowerE
  rcases h : jsGetProp f.properties "SOV0NAME" with _ | v
  · exact .inl ⟨none, rfl⟩
  · cases v with
    | num q => exact .inr rfl
    | str s => exact .inl ⟨some (jsToLower s), rfl⟩
    | bool b => exact .inr rfl
    | undef => exact .inl ⟨none, rfl⟩
    | nan => exact .inr rfl

/-- The substring predicate throws a TypeError on a feature whose NAME read
gives undefined. -/
lemma usSubstrPred_error_of_no_name (s : String) (f : Feature)
    (h : nameLowerE f = .ok none) : usSubstrPred s f = .error "TypeError" := by
  unfold usSubstrPred
  rw [h, exbind_ok]
  rcases sovLowerE_ok_or_typeerror f with ⟨c, hc⟩ | hc <;> rw [hc]
  · rw [exbind_ok]
  · rw [exbind_error]

/-- The substring predicate on a feature whose name does not contain the
query either returns false or throws a TypeError from the country read. -/
lemma usSubstrPred_no_match (s : String) (f : Feature) (nl : String)
    (hn : nameLowerE f = .ok (some nl)) (hinc : jsIncludes nl s = false) :
    usSubstrPred s f = .ok false ∨ usSubstrPred s f = .error "TypeError" := by
  unfold usSubstrPred
  rw [hn, exbind_ok]
  rcases sovLowerE_ok_or_typeerror f with ⟨c, hc⟩ | hc <;> rw [hc]
  · left
    rw [exbind_ok]
    simp [hinc, expure]
  · right
    rw [exbind_error]

/-- A find whose predicate is false everywhere yields none. -/
lemma jsFindE_ok_none_of (p : Feature → Except String Bool) (fs : List Feature)
    (h : ∀ f ∈ fs, p f = .ok false) : jsFindE p fs = .ok none := by
  induction fs with
  | nil => rfl
  | cons f fs ih =>
    unfold jsFindE
    rw [h f (by simp)]
    exact ih (fun g hg => h g (by simp [hg]))

/-- A find reaches the first throwing feature when every earlier feature
is rejected or throws the same error. -/
lemma jsFindE_error_append (p : Feature → Except String Bool)
    (before after : List Feature) (bad : Feature) (e : String)
    (hb : ∀ g ∈ before, p g = .ok false ∨ p g = .error e)
    (hbad : p bad = .error e) :
    jsFindE p (before ++ bad :: after) = .error e := by
  induction before with
  | nil =>
    simp only [List.nil_append, jsFindE, hbad]
  | cons g gs ih =>
    have hrest : jsFindE p (gs ++ bad :: after) = .error e :=
      ih (fun g' hg' => hb g' (List.mem_cons_of_mem g hg'))
    rcases hb g (List.mem_cons_self g gs) with h | h
    · simp only [List.cons_append, jsFindE, h]
      exact hrest
    · simp only [List.cons_append, jsFindE, h]

end SpatialUtils

/- ===== C1 : template selection ===== -/

/-- C1: the claim says the border query selects the border (TOUCHES)
template and the cities proximity query selects the cities (WITHIN)
template. Evaluating findMatchingTemplate shows that both queries instead
return the first template of the table, the coastline BUFFER template: the
keyword checks inside the loop never consult the template under iteration,
so whichever check fires on the first iteration returns template 0. -/
theorem findMatchingTemplate_returns_first_template_on_spec_queries :
    findMatchingTemplate "states that border Texas" = some coastlineBufferTemplate ∧
    findMatchingTemplate "cities within 50 miles of San Francisco" = some coastlineBufferTemplate ∧
    coastlineBufferTemplate.operation = "BUFFER" ∧
    statesBorderTemplate.operation = "TOUCHES" ∧
    citiesWithinTemplate.operation = "WITHIN" ∧
    coastlineBufferTemplate ≠ statesBorderTemplate ∧
    coastlineBufferTemplate ≠ citiesWithinTemplate := by
  decide

/- ===== C2 : DIFFERENCE skips the subtraction ===== -/

/-- C2: the claim says DIFFERENCE returns the first geometry with every
later geometry geometrically subtracted. Evaluating processDifference on any
input of at least two features shows the output geometry is the base
geometry unchanged, for every choice of subtractors: the loop of the source
breaks before computing any difference. -/
theorem processDifference_returns_base_geometry_unchanged
    (op : SpatialOperation) (base s0 : Feature) (rest : List Feature) :
    TurfSpatialProcessor.processDifference op (base :: s0 :: rest) =
      .ok [ { geometry := base.geometry
            , properties :=
                [ ("operation", .str "DIFFERENCE")
                , ("original_count", .num (((base :: s0 :: rest).length : ℕ) : ℚ)) ]
            , metadata :=
                { operation := "DIFFERENCE", processingTime := 0, engine := "turf" } } ] := by
  unfold TurfSpatialProcessor.processDifference
  rw [if_neg (by simp)]

/- ===== C3 : validation never inspects parameters ===== -/

/-- C3 counterexample: instantiating the coastline template with no
extracted parameters leaves distance bound to undefined, yet
validateOperation accepts the operation and processOperation executes it
without an error. -/
theorem validateOperation_passes_buffer_without_distance :
    createSpatialOperation coastlineBufferTemplate [] = some noParamBufferOp ∧
    TurfSpatialProcessor.validateOperation noParamBufferOp = true ∧
    (TurfSpatialProcessor.processOperation constTurf noParamBufferOp
        [{ geometry := some ⟨1⟩, properties := [] }]).isOk = true := by
  refine ⟨rfl, rfl, rfl⟩

/-- C3 amended: operation validation depends only on the type string and
accepts every operation whose type is one of the seven enumerated kinds,
whatever its parameter map; missing required parameters are never rejected
at validation time. -/
theorem validateOperation_checks_only_type :
    (∀ t p₁ l₁ p₂ l₂, TurfSpatialProcessor.validateOperation ⟨t, p₁, l₁⟩ =
        TurfSpatialProcessor.validateOperation ⟨t, p₂, l₂⟩) ∧
    (∀ p l, TurfSpatialProcessor.validateOperation ⟨"BUFFER", p, l⟩ = true) ∧
    (∀ p l, TurfSpatialProcessor.validateOperation ⟨"WITHIN", p, l⟩ = true) :=
  ⟨fun _ _ _ _ _ => rfl, fun _ _ => rfl, fun _ _ => rfl⟩

/- ===== C4 : UNION and DIFFERENCE need two features ===== -/

/-- C4: on fewer than 2 input features both UNION and DIFFERENCE throw their
requires-at-least-2-geometries errors instead of returning a result list. -/
theorem union_difference_require_two_features
    (tu : Feature → Feature → Feature) (opU opD : SpatialOperation)
    (data : List Feature) (h : data.length < 2) :
    TurfSpatialProcessor.processUnion tu opU data =
      .error "Union operation requires at least 2 geometries" ∧
    TurfSpatialProcessor.processDifference opD data =
      .error "Difference operation requires at least 2 geometries" := by
  constructor
  · unfold TurfSpatialProcessor.processUnion
    rw [if_pos h]
  · unfold TurfSpatialProcessor.processDifference
    rw [if_pos h]

/-- C4 witness: the empty input list has length below 2 and both operations
throw on it. -/
theorem union_difference_require_two_features_witness :
    ([] : List Feature).length < 2 ∧
    (TurfSpatialProcessor.processUnion (fun a _ => a) ⟨"UNION", [], []⟩ [] =
      .error "Union operation requires at least 2 geometries" ∧
     TurfSpatialProcessor.processDifference ⟨"DIFFERENCE", [], []⟩ [] =
      .error "Difference operation requires at least 2 geometries") :=
  ⟨by decide, union_difference_require_two_features (fun a _ => a) ⟨"UNION", [], []⟩
    ⟨"DIFFERENCE", [], []⟩ [] (by decide)⟩

/- ===== C5 : WITHIN includes a feature iff distance is in range ===== -/

/-- C5: for a WITHIN operation carrying a feature target, a numeric mile
distance d and units miles, a feature with geometry whose geodesic distance
computes to q kilometers appears in the result list iff q in meters is at
most d converted at 1609.34 meters per mile, and every emitted result
carries distance_to_target in meters and within_distance equal to the
converted radius. -/
theorem within_includes_iff_distance_le_radius
    (distFn : Feature → Feature → Except String ℚ) (op : SpatialOperation)
    (data : List Feature) (tgt : Feature) (d : ℚ)
    (htgt : jsParam op.parameters "targetGeometry" = .feat tgt)
    (hd : jsParam op.parameters "distance" = .prim (.num d))
    (hu : jsParam op.parameters "units" = .prim (.str "miles")) :
    (∀ r ∈ TurfSpatialProcessor.processWithin distFn op data,
      jsGetProp r.properties "within_distance" = some (.num (d * 1609.34)) ∧
      ∃ f ∈ data, ∃ q, distFn f tgt = .ok q ∧ q * 1000 ≤ d * 1609.34 ∧
        r.geometry = f.geometry ∧
        jsGetProp r.properties "distance_to_target" = some (.num (q * 1000))) ∧
    (∀ f ∈ data, f.geometry.isSome → ∀ q, distFn f tgt = .ok q →
      ((∃ r ∈ TurfSpatialProcessor.processWithin distFn op data,
          r.geometry = f.geometry ∧
          jsGetProp r.properties "distance_to_target" = some (.num (q * 1000))) ↔
        q * 1000 ≤ d * 1609.34)) := by
  rw [processWithin_expand distFn op data tgt d htgt hd hu]
  have hchar : ∀ r ∈ data.filterMap (withinStep distFn tgt d),
      jsGetProp r.properties "within_distance" = some (.num (d * 1609.34)) ∧
      ∃ f ∈ data, ∃ q, distFn f tgt = .ok q ∧ q * 1000 ≤ d * 1609.34 ∧
        r.geometry = f.geometry ∧
        jsGetProp r.properties "distance_to_target" = some (.num (q * 1000)) := by
    intro r hr
    obtain ⟨f, hf, hFf⟩ := List.mem_filterMap.mp hr
    unfold withinStep at hFf
    cases hg : f.geometry with
    | none => simp [hg] at hFf
    | some g =>
      simp only [hg] at hFf
      cases hq : distFn f tgt with
      | error e => simp [hq] at hFf
      | ok q =>
        simp only [hq] at hFf
        by_cases hc : jsLe (.num (q * 1000)) (.num (d * 1609.34)) = true
        · rw [if_pos hc] at hFf
          have hle : q * 1000 ≤ d * 1609.34 := by
            simpa [jsLe] using hc
          simp only [Option.some_inj] at hFf
          subst hFf
          refine ⟨?_, f, hf, q, hq, hle, by rw [hg], ?_⟩
          · show jsGetProp (f.properties ++ _) _ = _
            rw [jsGetProp_append]
            rfl
          · show jsGetProp (f.properties ++ _) _ = _
            rw [jsGetProp_append]
            rfl
        · rw [if_neg hc] at hFf
          exact absurd hFf (by simp)
  refine ⟨hchar, ?_⟩
  intro f hf hg q hq
  constructor
  · rintro ⟨r, hr, _, hdt⟩
    obtain ⟨_, f', _, q', hq', hle', _, hdt'⟩ := hchar r hr
    rw [hdt] at hdt'
    have : q * 1000 = q' * 1000 := by
      simpa [PropVal.num.injEq] using hdt'
    rw [this]
    exact hle'
  · intro hle
    obtain ⟨g, hg'⟩ := Option.isSome_iff_exists.mp hg
    have hstep : withinStep distFn tgt d f = some
        { geometry := f.geometry
        , properties := f.properties ++
            [ ("distance_to_target", .num (q * 1000))
            , ("within_distance", .num (d * 1609.34)) ]
        , metadata := { operation := "WITHIN", processingTime := 0, engine := "turf" } } := by
      unfold withinStep
      simp only [hg', hq]
      rw [if_pos (by simpa [jsLe] using hle)]
    refine ⟨_, List.mem_filterMap.mpr ⟨f, hf, hstep⟩, rfl, ?_⟩
    show jsGetProp (f.properties ++ _) _ = _
    rw [jsGetProp_append]
    rfl

/-- C5 witness: a concrete one-feature run at 1 km distance and a 50 mile
radius satisfies all three parameter hypotheses by rfl. -/
theorem within_includes_iff_distance_le_radius_witness :
    (∀ r ∈ TurfSpatialProcessor.processWithin cDistFn cWithinOp cWithinData,
      jsGetProp r.properties "within_distance" = some (.num (50 * 1609.34)) ∧
      ∃ f ∈ cWithinData, ∃ q, cDistFn f cWithinTarget = .ok q ∧ q * 1000 ≤ 50 * 1609.34 ∧
        r.geometry = f.geometry ∧
        jsGetProp r.properties "distance_to_target" = some (.num (q * 1000))) ∧
    (∀ f ∈ cWithinData, f.geometry.isSome → ∀ q, cDistFn f cWithinTarget = .ok q →
      ((∃ r ∈ TurfSpatialProcessor.processWithin cDistFn cWithinOp cWithinData,
          r.geometry = f.geometry ∧
          jsGetProp r.properties "distance_to_target" = some (.num (q * 1000))) ↔
        q * 1000 ≤ 50 * 1609.34)) :=
  within_includes_iff_distance_le_radius cDistFn cWithinOp cWithinData cWithinTarget 50
    rfl rfl rfl

/- ===== C6 : BUFFER emits one result per valid feature ===== -/

/-- C6: for a BUFFER operation with distance 50 and units miles, the engine
emits exactly one result per feature that has geometry and buffers
successfully (others are skipped, not errors), the external buffer is called
with 50 converted at 1609.34 meters per mile, and every result carries
buffer_distance 50. -/
theorem buffer_emits_one_result_per_valid_feature
    (tb : Feature → PropVal → Option Geometry) (op : SpatialOperation) (data : List Feature)
    (hd : jsParam op.parameters "distance" = .prim (.num 50))
    (hu : jsParam op.parameters "units" = .prim (.str "miles")) :
    (TurfSpatialProcessor.processBuffer tb op data).length =
      (data.filter (fun f => f.geometry.isSome &&
        (tb f (.num (50 * 1609.34))).isSome)).length ∧
    (∀ r ∈ TurfSpatialProcessor.processBuffer tb op data,
      jsGetProp r.properties "buffer_distance" = some (.num 50)) ∧
    (∀ f ∈ data, ∀ bg, tb f (.num (50 * 1609.34)) = some bg → f.geometry.isSome →
      ∃ r ∈ TurfSpatialProcessor.processBuffer tb op data, r.geometry = some bg) := by
  rw [processBuffer_expand tb op hd hu data]
  refine ⟨?_, ?_, ?_⟩
  · rw [length_filterMap_eq_length_filter]
    congr 1
    apply List.filter_congr
    intro f _
    unfold bufferStep50
    cases hg : f.geometry <;> cases htb : tb f (.num (50 * 1609.34)) <;> simp [hg, htb]
  · intro r hr
    obtain ⟨f, hf, hFf⟩ := List.mem_filterMap.mp hr
    unfold bufferStep50 at hFf
    cases hg : f.geometry with
    | none => rw [hg] at hFf; exact absurd hFf (by simp)
    | some g =>
      rw [hg] at hFf
      cases htb : tb f (.num (50 * 1609.34)) with
      | none => rw [htb] at hFf; exact absurd hFf (by simp)
      | some bg =>
        rw [htb] at hFf
        simp only [Option.some_inj] at hFf
        rw [← hFf]
        show jsGetProp (f.properties ++ _) _ = _
        rw [jsGetProp_append]
        rfl
  · intro f hf bg htb hg
    obtain ⟨g, hg⟩ := Option.isSome_iff_exists.mp hg
    have hstep : bufferStep50 tb f = some
        { geometry := some bg
        , properties := f.properties ++
            [ ("buffer_distance", PropVal.num 50)
            , ("buffer_units", PropVal.str "miles")
            , ("original_type", jsOr (jsGetProp f.properties "type") (.str "unknown")) ]
        , metadata := { operation := "BUFFER", processingTime := 0, engine := "turf" } } := by
      unfold bufferStep50
      rw [hg, htb]
    exact ⟨_, List.mem_filterMap.mpr ⟨f, hf, hstep⟩, rfl⟩

/-- C6 witness: a concrete run over one feature with geometry and one
without, under an always-succeeding external buffer. -/
theorem buffer_emits_one_result_per_valid_feature_witness :
    (TurfSpatialProcessor.processBuffer cTb cBufferOp cBufferData).length =
      (cBufferData.filter (fun f => f.geometry.isSome &&
        (cTb f (.num (50 * 1609.34))).isSome)).length ∧
    (∀ r ∈ TurfSpatialProcessor.processBuffer cTb cBufferOp cBufferData,
      jsGetProp r.properties "buffer_distance" = some (.num 50)) ∧
    (∀ f ∈ cBufferData, ∀ bg, cTb f (.num (50 * 1609.34)) = some bg → f.geometry.isSome →
      ∃ r ∈ TurfSpatialProcessor.processBuffer cTb cBufferOp cBufferData,
        r.geometry = some bg) :=
  buffer_emits_one_result_per_valid_feature cTb cBufferOp cBufferData rfl rfl

/- ===== C7 : the resolver prefers the United States San Francisco ===== -/

namespace SpatialUtils

/-- C7: a collection holding a United States feature named San Francisco and
a differently-countried feature of the same name resolves the query San
Francisco to the United States feature in either collection order: the
special-case first find only accepts an exact name whose sovereign field is
the preferred country. -/
theorem findFeatureByName_prefers_us_san_francisco
    (usF otherF : Feature) (nUS cUS nO cO : String)
    (hn : jsGetProp usF.properties "NAME" = some (.str nUS))
    (hnl : jsToLower nUS = "san francisco")
    (hc : jsGetProp usF.properties "SOV0NAME" = some (.str cUS))
    (hcl : jsToLower cUS = "united states" ∨ jsToLower cUS = "usa")
    (hon : jsGetProp otherF.properties "NAME" = some (.str nO))
    (honl : jsToLower nO = "san francisco")
    (hoc : jsGetProp otherF.properties "SOV0NAME" = some (.str cO))
    (hocl : jsToLower cO ≠ "united states" ∧ jsToLower cO ≠ "usa") :
    findFeatureByName [usF, otherF] "San Francisco" = .ok (some usF) ∧
    findFeatureByName [otherF, usF] "San Francisco" = .ok (some usF) := by
  have hnusF : nameLowerE usF = .ok (some "san francisco") := by
    unfold nameLowerE
    simp only [hn, hnl]
  have hcusF : sovLowerE usF = .ok (some (jsToLower cUS)) := by
    unfold sovLowerE
    simp only [hc]
  have hnoF : nameLowerE otherF = .ok (some "san francisco") := by
    unfold nameLowerE
    simp only [hon, honl]
  have hcoF : sovLowerE otherF = .ok (some (jsToLower cO)) := by
    unfold sovLowerE
    simp only [hoc]
  have hUSc : isUSCountry (some (jsToLower cUS)) = true := by
    rcases hcl with h | h <;> simp [isUSCountry, h]
  have hOc : isUSCountry (some (jsToLower cO)) = false := by
    simp [isUSCountry, hocl.1, hocl.2]
  have hpUS : usExactSFPred usF = .ok true := by
    unfold usExactSFPred
    rw [hnusF, exbind_ok, hcusF, exbind_ok, expure, hUSc]
    simp
  have hpO : usExactSFPred otherF = .ok false := by
    unfold usExactSFPred
    rw [hnoF, exbind_ok, hcoF, exbind_ok, expure, hOc]
    simp
  have hinc : jsIncludes (jsToLower "San Francisco") "san francisco" = true := by decide
  constructor
  · unfold findFeatureByName
    simp only [hinc, if_true, jsFindE, hpUS, expure, exbind_ok]
  · unfold findFeatureByName
    simp only [hinc, if_true, jsFindE, hpO, hpUS, expure, exbind_ok]

/-- C10 amended: for a query whose lowercase form does not contain the
special-cased string san francisco and is not an exact case-insensitive
match of any NAME, the resolver throws a TypeError as soon as the
substring scan reaches a feature lacking a NAME field, provided every
earlier feature has a string NAME that does not contain the query. -/
theorem findFeatureByName_throws_on_nameless_feature
    (q : String) (before after : List Feature) (noName : Feature)
    (h1 : jsIncludes (jsToLower q) "san francisco" = false)
    (h2 : ∀ f ∈ before ++ noName :: after,
      ∃ r, nameLowerE f = .ok r ∧ r ≠ some (jsToLower q))
    (h3 : nameLowerE noName = .ok none)
    (h4 : ∀ f ∈ before, ∃ nl, nameLowerE f = .ok (some nl) ∧
      jsIncludes nl (jsToLower q) = false) :
    findFeatureByName (before ++ noName :: after) q = .error "TypeError" := by
  have hexact : jsFindE (exactPred (jsToLower q)) (before ++ noName :: after) = .ok none := by
    apply jsFindE_ok_none_of
    intro f hf
    obtain ⟨r, hr, hne⟩ := h2 f hf
    unfold exactPred
    rw [hr, exbind_ok, expure]
    have hbeq : (r == some (jsToLower q)) = false := beq_eq_false_iff_ne.mpr hne
    rw [hbeq]
  have husm : jsFindE (usSubstrPred (jsToLower q)) (before ++ noName :: after) =
      .error "TypeError" := by
    apply jsFindE_error_append
    · intro g hg
      obtain ⟨nl, hnl, hinc⟩ := h4 g hg
      exact usSubstrPred_no_match (jsToLower q) g nl hnl hinc
    · exact usSubstrPred_error_of_no_name _ _ h3
  unfold findFeatureByName
  simp only [h1, if_false, expure, exbind_ok, hexact, husm, exbind_error,
    Bool.false_eq_true]

end SpatialUtils

/-- C7 witness: concrete United States and Philippines features named San
Francisco resolve to the United States one in both orders. -/
theorem findFeatureByName_prefers_us_san_francisco_witness :
    SpatialUtils.findFeatureByName [usSFWitnessFeature, philippinesSFWitnessFeature]
      "San Francisco" = .ok (some usSFWitnessFeature) ∧
    SpatialUtils.findFeatureByName [philippinesSFWitnessFeature, usSFWitnessFeature]
      "San Francisco" = .ok (some usSFWitnessFeature) :=
  SpatialUtils.findFeatureByName_prefers_us_san_francisco
    usSFWitnessFeature philippinesSFWitnessFeature
    "San Francisco" "United States" "San Francisco" "Philippines"
    (by decide) (by decide) (by decide) (.inl (by decide))
    (by decide) (by decide) (by decide) ⟨by decide, by decide⟩

/- ===== C8 : AREA_FILTER is monotone in minArea ===== -/

/-- C8: with the same input list and area oracle, raising minArea from a1 to
a2 yields a sublist of the a1 results, hence a subset and never a larger
result list. -/
theorem areaFilter_monotone_in_minArea
    (areaFn : Feature → ℚ) (op1 op2 : SpatialOperation) (data : List Feature) (a1 a2 : ℚ)
    (h1 : jsParam op1.parameters "minArea" = .prim (.num a1))
    (h2 : jsParam op2.parameters "minArea" = .prim (.num a2))
    (hle : a1 ≤ a2) :
    (TurfSpatialProcessor.processAreaFilter areaFn op2 data).Sublist
      (TurfSpatialProcessor.processAreaFilter areaFn op1 data) ∧
    (∀ r ∈ TurfSpatialProcessor.processAreaFilter areaFn op2 data,
      r ∈ TurfSpatialProcessor.processAreaFilter areaFn op1 data) ∧
    (TurfSpatialProcessor.processAreaFilter areaFn op2 data).length ≤
      (TurfSpatialProcessor.processAreaFilter areaFn op1 data).length := by
  rw [processAreaFilter_expand areaFn op1 data, processAreaFilter_expand areaFn op2 data,
    h1, h2]
  have himp : ∀ f r, areaStep areaFn (.prim (.num a2)) f = some r →
      areaStep areaFn (.prim (.num a1)) f = some r := by
    intro f r hstep
    unfold areaStep at hstep ⊢
    cases hg : f.geometry with
    | none => rw [hg] at hstep; exact absurd hstep (by simp)
    | some g =>
      simp only [hg] at hstep ⊢
      by_cases hc : jsLe (paramToNum (.prim (.num a2))) (.num (areaFn f / 2589988.110336)) = true
      · have hc1 : jsLe (paramToNum (.prim (.num a1))) (.num (areaFn f / 2589988.110336)) = true := by
          simp only [paramToNum, jsLe, decide_eq_true_eq] at hc ⊢
          exact le_trans hle hc
        rw [if_pos hc] at hstep
        rw [if_pos hc1]
        exact hstep
      · rw [if_neg hc] at hstep
        exact absurd hstep (by simp)
  have hsub := filterMap_sublist_of_imp
    (areaStep areaFn (.prim (.num a1))) (areaStep areaFn (.prim (.num a2))) himp data
  exact ⟨hsub, fun r hr => hsub.subset hr, hsub.length_le⟩

/-- C8 witness: thresholds 1 and 2 over a one square mile feature. -/
theorem areaFilter_monotone_in_minArea_witness :
    (TurfSpatialProcessor.processAreaFilter cAreaFn cAreaOp2 cAreaData).Sublist
      (TurfSpatialProcessor.processAreaFilter cAreaFn cAreaOp1 cAreaData) ∧
    (∀ r ∈ TurfSpatialProcessor.processAreaFilter cAreaFn cAreaOp2 cAreaData,
      r ∈ TurfSpatialProcessor.processAreaFilter cAreaFn cAreaOp1 cAreaData) ∧
    (TurfSpatialProcessor.processAreaFilter cAreaFn cAreaOp2 cAreaData).length ≤
      (TurfSpatialProcessor.processAreaFilter cAreaFn cAreaOp1 cAreaData).length :=
  areaFilter_monotone_in_minArea cAreaFn cAreaOp1 cAreaOp2 cAreaData 1 2 rfl rfl
    (by norm_num)

/- ===== C9 : results alias input geometry ===== -/

/-- C9 counterexample: running INTERSECTS over one concrete feature produces
a result whose geometry is exactly the input features geometry reference, so
emitted results do alias input geometry. -/
theorem intersects_result_aliases_input_geometry :
    (TurfSpatialProcessor.processIntersects (fun _ _ => true) cAliasOp [cAliasFeature]).map
      SpatialResult.geometry = [cAliasFeature.geometry] := by
  rfl

/-- C9 amended: the engine never mutates inputs and builds fresh property
maps, but every INTERSECTS and WITHIN result carries the geometry reference
of some input feature unchanged, for arbitrary external predicates and
operations. -/
theorem results_alias_some_input_geometry
    (bi : Feature → Feature → Bool) (distFn : Feature → Feature → Except String ℚ)
    (opI opW : SpatialOperation) (dataI dataW : List Feature) :
    (∀ r ∈ TurfSpatialProcessor.processIntersects bi opI dataI,
      ∃ f ∈ dataI, r.geometry = f.geometry) ∧
    (∀ r ∈ TurfSpatialProcessor.processWithin distFn opW dataW,
      ∃ f ∈ dataW, r.geometry = f.geometry) := by
  constructor
  · intro r hr
    unfold TurfSpatialProcessor.processIntersects at hr
    obtain ⟨f, hf, hFf⟩ := List.mem_filterMap.mp hr
    refine ⟨f, hf, ?_⟩
    cases hg : f.geometry with
    | none => simp [hg] at hFf
    | some g =>
      cases htv : jsParam opI.parameters "targetGeometry" with
      | prim v => simp [hg, htv] at hFf
      | feat tgt =>
        simp only [hg, htv, Option.ite_none_right_eq_some, Option.some_inj] at hFf
        obtain ⟨-, hFf⟩ := hFf
        rw [← hFf]
  · intro r hr
    unfold TurfSpatialProcessor.processWithin at hr
    obtain ⟨f, hf, hFf⟩ := List.mem_filterMap.mp hr
    refine ⟨f, hf, ?_⟩
    cases hg : f.geometry with
    | none => simp [hg] at hFf
    | some g =>
      cases htv : jsParam opW.parameters "targetGeometry" with
      | prim v => simp [hg, htv] at hFf
      | feat tgt =>
        simp only [hg, htv] at hFf
        cases hq : distFn f tgt with
        | error e => simp [hq] at hFf
        | ok q =>
          simp only [hq, Option.ite_none_right_eq_some, Option.some_inj] at hFf
          obtain ⟨-, hFf⟩ := hFf
          rw [← hFf]

/-- C9 witness: the aliasing statement instantiated at concrete external
functions, operations and data. -/
theorem results_alias_some_input_geometry_witness :
    (∀ r ∈ TurfSpatialProcessor.processIntersects (fun _ _ => true) cAliasOp [cAliasFeature],
      ∃ f ∈ [cAliasFeature], r.geometry = f.geometry) ∧
    (∀ r ∈ TurfSpatialProcessor.processWithin (fun _ _ => .ok 0) cAliasOp [cAliasFeature],
      ∃ f ∈ [cAliasFeature], r.geometry = f.geometry) :=
  results_alias_some_input_geometry (fun _ _ => true) (fun _ _ => .ok 0)
    cAliasOp cAliasOp [cAliasFeature] [cAliasFeature]

/- ===== C10 : the resolver is not total ===== -/

/-- C10 counterexample: with a NAME-less first feature and a United States
San Francisco feature, the query San Francisco Bay is not an exact match of
any NAME and no feature name contains it, yet the resolver returns the San
Francisco feature through the special case instead of throwing. -/
theorem findFeatureByName_sf_query_no_throw_counterexample :
    SpatialUtils.nameLowerE noNameFeature = .ok none ∧
    SpatialUtils.nameLowerE usSFCityFeature = .ok (some "san francisco") ∧
    jsToLower "San Francisco Bay" = "san francisco bay" ∧
    "san francisco" ≠ "san francisco bay" ∧
    jsIncludes "san francisco" "san francisco bay" = false ∧
    SpatialUtils.findFeatureByName [noNameFeature, usSFCityFeature] "San Francisco Bay" =
      .ok (some usSFCityFeature) := by
  decide

/-- C10 witness: a singleton collection whose only feature lacks NAME makes
the resolver throw a TypeError on a plain query. -/
theorem findFeatureByName_throws_witness :
    SpatialUtils.findFeatureByName [noNameOnlyFeature] "tokyo" = .error "TypeError" :=
  SpatialUtils.findFeatureByName_throws_on_nameless_feature "tokyo" [] [] noNameOnlyFeature
    (by decide)
    (by
      intro f hf
      simp only [List.nil_append, List.mem_singleton] at hf
      subst hf
      exact ⟨none, by decide, by decide⟩)
    (by decide)
    (by intro f hf; exact absurd hf (by simp))
